import Mathlib

/-!
Formal model of the CIROH workshop notebook `scripts/CIROH_Datasets.ipynb`.

The notebook loads facet/OPG CSV grids and six ERA5 NetCDF atmospheric
fields, applies fixed unit conversions, subsets the fields to a date
interval, and renders three kinds of figures (an overview facet map, an
OPG time series, and one multi-panel atmospheric plot per day).

The shallow embedding below models:
- calendar dates with the lexicographic order used by xarray label slicing;
- an atmospheric dataset as a time axis, 1-D coordinate axes and a
  time-indexed stack of 2-D grids of rational values;
- `sel(time=slice(a, b))` as the closed-interval filter on the time axis;
- the dataset-level arithmetic (`* 1000`, `- 273.15`, `/ 9.81`) applied at
  load time, which in xarray touches data variables only;
- the orientation sentinel masking `orientx[orientx == 9] = np.nan`
  (cells are `Option ℚ`, `none` standing for NaN);
- `np.median` (sort ascending, take the middle element, average the two
  middle elements when the count is even, undefined on an empty array);
- the overview-map cell, with the points at which numpy or matplotlib
  would raise before the figure is saved;
- the daily multi-panel rendering loop, including the per-panel
  `contourf`/`contour` shape requirements, the strided `barbs` overlay,
  and the date-stamped file name written by each iteration.
-/

namespace CirohDatasets

/-- A calendar date, as carried by the notebook's daily time axes
(e.g. the string labels `2017-01-07` used in `sel(time=slice(...))`). -/
structure Date where
  year : Nat
  month : Nat
  day : Nat
deriving DecidableEq, Repr

/-- Total order key for dates: lexicographic on (year, month, day),
matching how xarray compares time labels. -/
def Date.key (t : Date) : Nat :=
  t.year * 10000 + t.month * 100 + t.day

/-- Closed-interval test `a ≤ t ≤ b` on dates: both endpoints inclusive,
as in a pandas/xarray label slice. -/
def Date.between (a b t : Date) : Bool :=
  a.key ≤ t.key && t.key ≤ b.key

/-- One ERA5 dataset as loaded by `xr.open_dataset`: a daily time axis,
1-D latitude and longitude coordinate axes, and the single data variable
as a time-indexed stack of 2-D grids. -/
structure AtmosField where
  time : List Date
  latitude : List ℚ
  longitude : List ℚ
  data : List (List (List ℚ))
deriving DecidableEq, Repr

/-- Model of `field.sel(time=slice(a, b))`: retain exactly the time
entries whose label lies in the closed interval `[a, b]`, together with
the data slab at the same position; coordinate axes other than time are
untouched. -/
def selTimeSlice (f : AtmosField) (a b : Date) : AtmosField :=
  let keep := (f.time.zip f.data).filter (fun p => Date.between a b p.1)
  { time := keep.map Prod.fst
    latitude := f.latitude
    longitude := f.longitude
    data := keep.map Prod.snd }

/-- Value of a field's data variable at time index `k`, row `i`,
column `j`; `none` when out of bounds. -/
def AtmosField.cellAt (f : AtmosField) (k i j : Nat) : Option ℚ :=
  ((f.data[k]?).bind (fun slab => slab[i]?)).bind (fun row => row[j]?)

/-- Day `d` of January 2017. -/
def janDay (d : Nat) : Date :=
  ⟨2017, 1, d⟩

/-- The daily time axis 2017-01-01 .. 2017-01-31. -/
def janTimes : List Date :=
  (List.range 31).map (fun i => janDay (i + 1))

/-- A source field with one daily record for each day of January 2017,
on a 1×1 spatial grid. -/
def janField : AtmosField :=
  { time := janTimes
    latitude := [41]
    longitude := [248]
    data := janTimes.map (fun _ => [[0]]) }

/-- The six ERA5 datasets, in the order they are opened in the loading
cell of the notebook. -/
structure RawAtmos where
  ivt : AtmosField
  precip : AtmosField
  temp700 : AtmosField
  uwinds700 : AtmosField
  vwinds700 : AtmosField
  hgt500 : AtmosField
deriving DecidableEq, Repr

/-- Dataset-level pointwise arithmetic, as xarray applies it: the
operation maps every value of every data variable and leaves every
coordinate axis (time, latitude, longitude) untouched. -/
def dsMap (f : AtmosField) (g : ℚ → ℚ) : AtmosField :=
  { f with data := f.data.map (fun slab => slab.map (fun row => row.map g)) }

/-- Dataset times scalar, as in `xr.open_dataset(...) * 1000`. -/
def dsMul (f : AtmosField) (c : ℚ) : AtmosField :=
  dsMap f (· * c)

/-- Dataset minus scalar, as in `xr.open_dataset(...) - 273.15`. -/
def dsSub (f : AtmosField) (c : ℚ) : AtmosField :=
  dsMap f (· - c)

/-- Dataset divided by scalar, as in `xr.open_dataset(...) / 9.81`. -/
def dsDiv (f : AtmosField) (c : ℚ) : AtmosField :=
  dsMap f (· / c)

/-- The ERA5 loading cell: IVT, U-wind and V-wind are used as opened;
precipitation is multiplied by 1000 (m → mm), 700 hPa temperature is
shifted by −273.15 (K → °C), 500 hPa geopotential is divided by 9.81
(to geopotential height in m). -/
def loadAtmos (raw : RawAtmos) : RawAtmos :=
  { ivt := raw.ivt
    precip := dsMul raw.precip 1000
    temp700 := dsSub raw.temp700 273.15
    uwinds700 := raw.uwinds700
    vwinds700 := raw.vwinds700
    hgt500 := dsDiv raw.hgt500 9.81 }

/-- Cell of a 2-D grid at row `i`, column `j`; `none` when out of
bounds. -/
def gridCell (g : List (List α)) (i j : Nat) : Option α :=
  (g[i]?).bind (fun row => row[j]?)

/-- Row-length profile of a 2-D grid (two numpy arrays used together
must agree on it). -/
def gridDims (g : List (List α)) : List Nat :=
  g.map List.length

/-- An integer grid value as a float value. -/
def intToRat (v : ℤ) : ℚ :=
  (v : ℚ)

/-- Model of `orientation.astype('float')`: a fresh float copy of the
integer orientation grid; float cells are `Option ℚ`, with `none`
standing for NaN, so a freshly converted cell is always `some`. -/
def floatGrid (g : List (List ℤ)) : List (List (Option ℚ)) :=
  g.map (fun row => row.map (fun v => some (intToRat v)))

/-- One cell of the masking assignment `orientx[orientx == 9] = np.nan`:
a cell equal to 9 becomes NaN; NaN itself compares unequal to 9 in
numpy, so an already-masked cell is left alone. -/
def maskCell (x : Option ℚ) : Option ℚ :=
  if x = some 9 then none else x

/-- The masking assignment applied to the whole grid. -/
def maskGrid (g : List (List (Option ℚ))) : List (List (Option ℚ)) :=
  g.map (fun row => row.map maskCell)

/-- Insert a value into an ascending list, keeping it ascending. -/
def insertSorted (x : ℚ) : List ℚ → List ℚ
  | [] => [x]
  | y :: ys => if x ≤ y then x :: y :: ys else y :: insertSorted x ys

/-- Sort a list of rationals ascending (insertion sort). -/
def sortAsc (l : List ℚ) : List ℚ :=
  l.foldr insertSorted []

/-- Model of `np.median`: sort the values, take the middle one when the
count is odd, the mean of the two middle ones when even; the median of
an empty array is NaN (`none`). -/
def npMedian (l : List ℚ) : Option ℚ :=
  match sortAsc l with
  | [] => none
  | x :: s =>
    let n := (x :: s).length
    if n % 2 = 1 then some ((x :: s).getD (n / 2) x)
    else some (((x :: s).getD (n / 2 - 1) x + (x :: s).getD (n / 2) x) / 2)

/-- Model of the boolean-mask selection `vals[facets == fid]`: the cells
of `vals` at positions where the facet grid holds `fid`, flattened in
row-major order. -/
def boolSelect (vals : List (List ℚ)) (facets : List (List ℤ)) (fid : ℤ) :
    List ℚ :=
  ((vals.zip facets).map (fun p =>
    (p.1.zip p.2).filterMap (fun q => if q.2 = fid then some q.1 else none))).flatten

/-- Does facet id `fid` occur anywhere in the facet grid? -/
def gridOccurs (facets : List (List ℤ)) (fid : ℤ) : Bool :=
  facets.any (fun row => row.any (fun v => v == fid))

/-- The overview map's label position for facet `fid`:
`(np.median(lons[facets == fid]), np.median(lats[facets == fid]))`. -/
def labelPos (facets : List (List ℤ)) (lons lats : List (List ℚ)) (fid : ℤ) :
    Option ℚ × Option ℚ :=
  (npMedian (boolSelect lons facets fid), npMedian (boolSelect lats facets fid))

/-- Rectangular shape of a grid: `some (rows, cols)` when every row has
the same length (numpy arrays are rectangular), else `none`. -/
def rectShape (g : List (List α)) : Option (Nat × Nat) :=
  match g with
  | [] => some (0, 0)
  | row :: _ =>
    if g.all (fun r => r.length == row.length) then some (g.length, row.length)
    else none

/-- Dimension check of `pcolormesh(X, Y, C, shading='auto')` with 2-D
coordinate arrays: X and Y must both have the shape of C (nearest
shading) or both be one larger in each dimension (flat shading);
anything else raises before the figure is saved. -/
def pcolormeshOk (X Y : List (List ℚ)) (C : List (List (Option ℚ))) : Bool :=
  match rectShape X, rectShape Y, rectShape C with
  | some (xr, xc), some (yr, yc), some (cr, cc) =>
    (xr == cr && xc == cc && yr == cr && yc == cc)
      || (xr == cr + 1 && xc == cc + 1 && yr == cr + 1 && yc == cc + 1)
  | _, _, _ => false

/-- The overview-map cell: mask the orientation grid, draw it with
`pcolormesh(lons, lats, orientx)`, compute the facet label position from
the median of the boolean-selected coordinates, and save
`facet_orientations.png`. An `Except.error` models a numpy/matplotlib
exception raised before `savefig` runs, i.e. before any file is
written; on success the saved file name and the label position are
returned. The notebook uses `fid = 2131`. -/
def renderOverview (orientation facets : List (List ℤ))
    (lats lons : List (List ℚ)) (fid : ℤ) :
    Except String (String × (Option ℚ × Option ℚ)) :=
  let orientx := maskGrid (floatGrid orientation)
  if !pcolormeshOk lons lats orientx then
    Except.error "pcolormesh: incompatible X, Y, C dimensions"
  else if !(gridDims facets == gridDims lons && gridDims facets == gridDims lats) then
    Except.error "boolean index did not match indexed array"
  else
    Except.ok ("../figures/facet_orientations.png", labelPos facets lons lats fid)

/-- Two-digit zero-padded decimal rendering of months and days. -/
def pad2 (n : Nat) : String :=
  if n < 10 then "0" ++ toString n else toString n

/-- Four-digit zero-padded decimal rendering of years. -/
def pad4 (n : Nat) : String :=
  if n < 10 then "000" ++ toString n
  else if n < 100 then "00" ++ toString n
  else if n < 1000 then "0" ++ toString n
  else toString n

/-- ISO rendering of a date, as `np.datetime_as_string(..., unit="D")`
produces it: `YYYY-MM-DD`. -/
def Date.iso (t : Date) : String :=
  pad4 t.year ++ "-" ++ pad2 t.month ++ "-" ++ pad2 t.day

/-- The file name written for one day of the multi-panel loop:
`f"{path}atmos_{datex}.png"` with `path = "../figures/"`. -/
def dailyFile (t : Date) : String :=
  "../figures/atmos_" ++ t.iso ++ ".png"

/-- Shape check of `contourf(x, y, Z)`/`contour(x, y, Z)` with 1-D
coordinates: `Z` must be at least a 2×2 array (matplotlib raises
`TypeError: Input z must be at least a (2, 2) shaped array` otherwise)
and must have `len(y)` rows, each of length `len(x)`. -/
def gridMatches (g : List (List ℚ)) (lat lon : List ℚ) : Bool :=
  decide (2 ≤ g.length) && g.all (fun row => decide (2 ≤ row.length))
    && g.length == lat.length && g.all (fun row => row.length == lon.length)

/-- One panel of day `k`: indexing `field.values[k, :, :]` must be in
bounds and the slab must fit the field's own coordinate axes. -/
def panelOk (f : AtmosField) (k : Nat) : Bool :=
  match f.data[k]? with
  | some slab => gridMatches slab f.latitude f.longitude
  | none => false

/-- Helper for the numpy stride `[::5]`: `n` counts how many elements
remain to be skipped before the next one is kept. -/
def stride5Aux : Nat → List α → List α
  | _, [] => []
  | 0, x :: xs => x :: stride5Aux 4 xs
  | n + 1, _ :: xs => stride5Aux n xs

/-- Every fifth element of a list, as in the numpy stride `[::5]`. -/
def stride5 (l : List α) : List α :=
  stride5Aux 0 l

/-- Shape check of the wind-barb overlay
`barbs(uwinds700.longitude[::5], uwinds700.latitude[::5], u700, v700)`
where `u700`/`v700` are the day's U/V slabs strided by `[::5, ::5]`:
the strided U slab must fit the strided U coordinates and the strided V
slab must have the same shape as the strided U slab. -/
def barbsOk (u v : AtmosField) (k : Nat) : Bool :=
  match u.data[k]?, v.data[k]? with
  | some us, some vs =>
    let u5 := (stride5 us).map stride5
    let v5 := (stride5 vs).map stride5
    u5.length == (stride5 u.latitude).length
      && u5.all (fun row => row.length == (stride5 u.longitude).length)
      && (v5.map List.length == u5.map List.length)
  | _, _ => false

/-- All drawing operations of one day of the multi-panel loop, in the
order the cell issues them: six contour panels (IVT, 500 hPa heights,
precipitation, U-wind, V-wind, temperature) and the barb overlay. -/
def dayOk (A : RawAtmos) (k : Nat) : Bool :=
  panelOk A.ivt k && panelOk A.hgt500 k && panelOk A.precip k
    && panelOk A.uwinds700 k && panelOk A.vwinds700 k && panelOk A.temp700 k
    && barbsOk A.uwinds700 A.vwinds700 k

/-- The body of `for dayx in range(len(IVT.time.values))` from day index
`k` on, where the list argument is the remaining suffix of IVT's time
axis. Each successful iteration saves `atmos_<date>.png`; a failed
drawing operation raises, so the day's file is not written and the loop
stops, leaving the files of earlier days on disk. Returns the saved
file names in order and whether the loop ran to completion. -/
def renderFrom (A : RawAtmos) : Nat → List Date → List String × Bool
  | _, [] => ([], true)
  | k, d :: ds =>
    if dayOk A k then
      let r := renderFrom A (k + 1) ds
      (dailyFile d :: r.1, r.2)
    else ([], false)

/-- The daily multi-panel rendering loop over the whole of IVT's time
axis. -/
def renderDaily (A : RawAtmos) : List String × Bool :=
  renderFrom A 0 A.ivt.time

/-- A field is well formed when its data variable has one slab per time
entry and each slab fits the field's own coordinate axes (always true of
a dataset read from a valid NetCDF file). -/
def wellFormed (f : AtmosField) : Bool :=
  f.data.length == f.time.length
    && f.data.all (fun slab => gridMatches slab f.latitude f.longitude)

/-- All the arrays the notebook has loaded at rendering time, plus the
derived `orientx` once the overview cell has assigned it. -/
structure Notebook where
  elev : List (List ℚ)
  facets : List (List ℤ)
  lats : List (List ℚ)
  lons : List (List ℚ)
  orientation : List (List ℤ)
  opg : List (String × List ℚ)
  atmos : RawAtmos
  orientx : Option (List (List (Option ℚ)))
deriving DecidableEq, Repr

/-- State effect of the overview-map cell: `orientx` is bound to a fresh
float copy of the orientation grid (`astype('float')` copies) and the
masking assignment then mutates that copy in place; no loaded array is
assigned. -/
def overviewCellState (nb : Notebook) : Notebook :=
  let ox := floatGrid nb.orientation
  let ox := maskGrid ox
  { nb with orientx := some ox }

/-- State effect of the OPG time-series cell: it only builds local
values (`xdata`, the figure) and saves a file; no loaded array is
assigned. -/
def timeSeriesCellState (nb : Notebook) : Notebook :=
  nb

/-- State effect of the daily multi-panel cell: it only builds local
values (`u700`, `v700`, `datex`, figures) and saves files; no loaded
array is assigned. -/
def dailyCellState (nb : Notebook) : Notebook :=
  nb

/-- The six-day time axis 2017-01-07 .. 2017-01-12 produced by the
subsetting cell. -/
def sixDayTimes : List Date :=
  [janDay 7, janDay 8, janDay 9, janDay 10, janDay 11, janDay 12]

/-- A six-day field on a 2×2 spatial grid (the smallest grid the
contour panels accept). -/
def sixDayField : AtmosField :=
  { time := sixDayTimes
    latitude := [41, 42]
    longitude := [248, 249]
    data := sixDayTimes.map (fun _ => [[0, 0], [0, 0]]) }

/-- A six-day subset in which all six variables share the same grid. -/
def sixDayAtmos : RawAtmos :=
  ⟨sixDayField, sixDayField, sixDayField, sixDayField, sixDayField, sixDayField⟩

/-- A two-day field on a 2×2 spatial grid. -/
def twoDayField2x2 : AtmosField :=
  { time := [janDay 7, janDay 8]
    latitude := [41, 42]
    longitude := [248, 249]
    data := [[[0, 0], [0, 0]], [[0, 0], [0, 0]]] }

/-- A two-day field on a 3×3 spatial grid. -/
def twoDayField3x3 : AtmosField :=
  { time := [janDay 7, janDay 8]
    latitude := [41, 42, 43]
    longitude := [248, 249, 250]
    data := [[[0, 0, 0], [0, 0, 0], [0, 0, 0]],
      [[0, 0, 0], [0, 0, 0], [0, 0, 0]]] }

/-- A dataset collection whose precipitation grid shape (3×3) differs
from the shape of every other variable (2×2); every grid meets the 2×2
contour minimum, so each panel draws against its own coordinates. -/
def mismatchAtmos : RawAtmos :=
  ⟨twoDayField2x2, twoDayField3x3, twoDayField2x2, twoDayField2x2,
    twoDayField2x2, twoDayField2x2⟩

/-- A small facet grid containing facet id 2131. -/
def facetsEx : List (List ℤ) :=
  [[2131, 1], [3, 2131]]

/-- A small longitude grid matching `facetsEx`. -/
def lonsEx : List (List ℚ) :=
  [[1, 2], [3, 4]]

/-- A small latitude grid matching `facetsEx`. -/
def latsEx : List (List ℚ) :=
  [[5, 6], [7, 8]]

/-- A small orientation grid matching `facetsEx`, containing the flat
sentinel 9. -/
def orientationEx : List (List ℤ) :=
  [[1, 9], [2, 3]]

/-- A concrete notebook state before any rendering cell runs. -/
def notebookEx : Notebook :=
  { elev := [[1500, 1600], [1700, 1800]]
    facets := facetsEx
    lats := latsEx
    lons := lonsEx
    orientation := orientationEx
    opg := [("2017-01-07", [1/10]), ("2017-01-08", [2/10])]
    atmos := sixDayAtmos
    orientx := none }

/-- A small facet grid in which facet id 2131 never occurs. -/
def facetsNoLabel : List (List ℤ) :=
  [[1, 2], [3, 4]]

/-- A 2×1 orientation grid, shape-incompatible with the 2×2 coordinate
grids `lonsEx`/`latsEx`. -/
def orientationTall : List (List ℤ) :=
  [[1], [9]]

/-- Running the three rendering cells in notebook order. -/
def renderAllCells (nb : Notebook) : Notebook :=
  dailyCellState (timeSeriesCellState (overviewCellState nb))

/-- The first components of a zip form a sublist of the left list. -/
theorem map_fst_zip_sublist (ts : List α) (ds : List β) :
    ((ts.zip ds).map Prod.fst).Sublist ts := by
  induction ts generalizing ds with
  | nil => simp
  | cons t ts ih =>
    cases ds with
    | nil => simp
    | cons d ds =>
      simpa [List.zip_cons_cons] using (ih ds).cons_cons t

/-- Every element of the left list appears as a first component of the
zip, provided the right list is at least as long. -/
theorem exists_mem_zip_of_mem (ts : List α) (ds : List β)
    (hlen : ts.length ≤ ds.length) (t : α) (ht : t ∈ ts) :
    ∃ d, (t, d) ∈ ts.zip ds := by
  induction ts generalizing ds with
  | nil => cases ht
  | cons t' ts ih =>
    cases ds with
    | nil => simp at hlen
    | cons d' ds =>
      rcases List.mem_cons.mp ht with h | h
      · exact ⟨d', by simp [h]⟩
      · obtain ⟨d, hd⟩ := ih ds (by simpa using Nat.le_of_succ_le_succ hlen) h
        exact ⟨d, by simp [hd]⟩

/-- C1: date subsetting retains exactly the timestamps `t` of the time
axis with `a ≤ t ≤ b` (both endpoints inclusive): the retained axis is a
sublist of the original, every retained label lies in the interval, every
in-interval label of the axis is retained, an interval overlapping no
timestamp yields an empty but valid result, and subsetting the daily
January 2017 axis to [2017-01-07, 2017-01-12] retains exactly 6 days. -/
theorem selTimeSlice_exact (f : AtmosField) (a b : Date)
    (hwf : f.time.length ≤ f.data.length) :
    (selTimeSlice f a b).time.Sublist f.time
    ∧ (∀ t ∈ (selTimeSlice f a b).time, Date.between a b t = true)
    ∧ (∀ t ∈ f.time, Date.between a b t = true →
        t ∈ (selTimeSlice f a b).time)
    ∧ ((∀ t ∈ f.time, Date.between a b t = false) →
        (selTimeSlice f a b).time = [])
    ∧ (selTimeSlice janField (janDay 7) (janDay 12)).time.length = 6 := by
  refine ⟨?_, ?_, ?_, ?_, by decide⟩
  · exact (List.Sublist.map Prod.fst
      (List.filter_sublist (f.time.zip f.data))).trans
      (map_fst_zip_sublist f.time f.data)
  · intro t ht
    simp only [selTimeSlice, List.mem_map] at ht
    obtain ⟨p, hp, rfl⟩ := ht
    exact (List.mem_filter.mp hp).2
  · intro t ht hbet
    obtain ⟨d, hd⟩ := exists_mem_zip_of_mem f.time f.data hwf t ht
    simp only [selTimeSlice, List.mem_map]
    exact ⟨(t, d), List.mem_filter.mpr ⟨hd, hbet⟩, rfl⟩
  · intro hnone
    simp only [selTimeSlice]
    rw [List.map_eq_nil_iff, List.filter_eq_nil_iff]
    intro p hp
    have hfst : p.1 ∈ f.time :=
      (map_fst_zip_sublist f.time f.data).mem (List.mem_map_of_mem Prod.fst hp)
    simp [hnone p.1 hfst]

/-- Concrete instance of C1: the January 2017 source is well formed and
its subset to [2017-01-07, 2017-01-12] has exactly 6 days. -/
theorem selTimeSlice_exact_witness :
    janField.time.length ≤ janField.data.length
    ∧ (selTimeSlice janField (janDay 7) (janDay 12)).time.length = 6 :=
  ⟨by decide,
    (selTimeSlice_exact janField (janDay 7) (janDay 12) (by decide)).2.2.2.2⟩

/-- Pointwise arithmetic acts cell by cell through `cellAt`. -/
theorem dsMap_cellAt (f : AtmosField) (g : ℚ → ℚ) (k i j : Nat) :
    (dsMap f g).cellAt k i j = (f.cellAt k i j).map g := by
  simp only [dsMap, AtmosField.cellAt, List.getElem?_map]
  cases f.data[k]? with
  | none => rfl
  | some slab =>
    simp only [Option.map_some', Option.some_bind', List.getElem?_map]
    cases slab[i]? with
    | none => rfl
    | some row =>
      simp only [Option.map_some', Option.some_bind', List.getElem?_map]

/-- C2: the fixed unit-conversion table is applied unconditionally at
load time: every precipitation cell is multiplied by 1000, every 700 hPa
temperature cell is shifted by −273.15, every geopotential cell is
divided by 9.81, and IVT and the two 700 hPa wind components are loaded
unconverted. -/
theorem loadAtmos_conversions (raw : RawAtmos) (k i j : Nat) :
    (loadAtmos raw).precip.cellAt k i j
      = (raw.precip.cellAt k i j).map (· * 1000)
    ∧ (loadAtmos raw).temp700.cellAt k i j
      = (raw.temp700.cellAt k i j).map (· - 273.15)
    ∧ (loadAtmos raw).hgt500.cellAt k i j
      = (raw.hgt500.cellAt k i j).map (· / 9.81)
    ∧ (loadAtmos raw).ivt = raw.ivt
    ∧ (loadAtmos raw).uwinds700 = raw.uwinds700
    ∧ (loadAtmos raw).vwinds700 = raw.vwinds700 :=
  ⟨dsMap_cellAt raw.precip _ k i j, dsMap_cellAt raw.temp700 _ k i j,
    dsMap_cellAt raw.hgt500 _ k i j, rfl, rfl, rfl⟩

/-- Date subsetting commutes with pointwise dataset arithmetic: the
filter looks only at the time axis, which `dsMap` does not touch. -/
theorem selTimeSlice_dsMap (f : AtmosField) (g : ℚ → ℚ) (a b : Date) :
    selTimeSlice (dsMap f g) a b = dsMap (selTimeSlice f a b) g := by
  have hz : f.time.zip
        (f.data.map (fun slab => slab.map (fun row => row.map g)))
      = (f.time.zip f.data).map
        (Prod.map id (fun slab => slab.map (fun row => row.map g))) :=
    List.zip_map_right _ _ _
  simp only [selTimeSlice, dsMap, hz, List.filter_map, AtmosField.mk.injEq,
    List.map_map]
  refine ⟨?_, trivial, trivial, ?_⟩
  · congr 1
  · congr 1

/-- C10: the load-time unit conversions modify only the data variables:
the time, latitude and longitude axes of the converted datasets equal
those of the raw datasets, and date subsetting the converted datasets is
the same as converting the date-subsetted raw datasets — so label-based
subsetting works unchanged after conversion. -/
theorem loadAtmos_touches_only_data (raw : RawAtmos) (a b : Date) :
    ((loadAtmos raw).precip.time = raw.precip.time
      ∧ (loadAtmos raw).precip.latitude = raw.precip.latitude
      ∧ (loadAtmos raw).precip.longitude = raw.precip.longitude)
    ∧ ((loadAtmos raw).temp700.time = raw.temp700.time
      ∧ (loadAtmos raw).temp700.latitude = raw.temp700.latitude
      ∧ (loadAtmos raw).temp700.longitude = raw.temp700.longitude)
    ∧ ((loadAtmos raw).hgt500.time = raw.hgt500.time
      ∧ (loadAtmos raw).hgt500.latitude = raw.hgt500.latitude
      ∧ (loadAtmos raw).hgt500.longitude = raw.hgt500.longitude)
    ∧ selTimeSlice (loadAtmos raw).precip a b
      = dsMul (selTimeSlice raw.precip a b) 1000
    ∧ selTimeSlice (loadAtmos raw).temp700 a b
      = dsSub (selTimeSlice raw.temp700 a b) 273.15
    ∧ selTimeSlice (loadAtmos raw).hgt500 a b
      = dsDiv (selTimeSlice raw.hgt500 a b) 9.81
    ∧ (selTimeSlice (loadAtmos raw).precip a b).time
      = (selTimeSlice raw.precip a b).time := by
  refine ⟨⟨rfl, rfl, rfl⟩, ⟨rfl, rfl, rfl⟩, ⟨rfl, rfl, rfl⟩, ?_, ?_, ?_, ?_⟩
  · exact selTimeSlice_dsMap raw.precip _ a b
  · exact selTimeSlice_dsMap raw.temp700 _ a b
  · exact selTimeSlice_dsMap raw.hgt500 _ a b
  · rw [show (loadAtmos raw).precip = dsMap raw.precip (· * 1000) from rfl,
      selTimeSlice_dsMap]
    rfl

/-- Masking one cell twice is the same as masking it once. -/
theorem maskCell_idem (x : Option ℚ) : maskCell (maskCell x) = maskCell x := by
  cases x with
  | none => simp [maskCell]
  | some v =>
    by_cases h : v = 9 <;> simp [maskCell, h]

/-- C3: sentinel masking maps every cell equal to 9 to the missing
marker, leaves every other cell (in particular the codes 1–8) unchanged,
leaves an already-missing cell alone, and is idempotent on whole grids:
mask(mask(G)) = mask(G). -/
theorem maskGrid_sentinel (g : List (List (Option ℚ))) (v : ℚ) (hv : v ≠ 9) :
    maskCell (some 9) = none
    ∧ maskCell (some v) = some v
    ∧ maskCell none = none
    ∧ maskGrid (maskGrid g) = maskGrid g := by
  refine ⟨by simp [maskCell], by simp [maskCell, hv], by simp [maskCell], ?_⟩
  simp [maskGrid, List.map_map, Function.comp_def, maskCell_idem]

/-- Concrete instance of C3: on the float image of the example
orientation grid, the sentinel 9 becomes missing, the code 3 survives,
and re-masking changes nothing. -/
theorem maskGrid_sentinel_witness :
    (3 : ℚ) ≠ 9
    ∧ maskCell (some 9) = none
    ∧ maskCell (some 3) = some 3
    ∧ maskGrid (maskGrid (floatGrid orientationEx))
      = maskGrid (floatGrid orientationEx) := by
  have h := maskGrid_sentinel (floatGrid orientationEx) 3 (by norm_num)
  exact ⟨by norm_num, h.1, h.2.1, h.2.2.2⟩

/-- Inserting into a sorted list never yields the empty list. -/
theorem insertSorted_ne_nil (x : ℚ) (l : List ℚ) : insertSorted x l ≠ [] := by
  cases l with
  | nil => simp [insertSorted]
  | cons y ys =>
    simp only [insertSorted]
    split <;> simp

/-- Sorting a nonempty list yields a nonempty list. -/
theorem sortAsc_ne_nil (l : List ℚ) (h : l ≠ []) : sortAsc l ≠ [] := by
  cases l with
  | nil => exact absurd rfl h
  | cons x xs => exact insertSorted_ne_nil x (sortAsc xs)

/-- The median of a nonempty array is a defined number. -/
theorem npMedian_isSome (l : List ℚ) (h : l ≠ []) :
    ∃ x, npMedian l = some x := by
  unfold npMedian
  cases hs : sortAsc l with
  | nil => exact absurd hs (sortAsc_ne_nil l h)
  | cons a s =>
    dsimp only
    split <;> exact ⟨_, rfl⟩

/-- When the facet id occurs nowhere, the boolean selection is empty. -/
theorem boolSelect_eq_nil (vals : List (List ℚ)) (facets : List (List ℤ))
    (fid : ℤ) (hnocc : gridOccurs facets fid = false) :
    boolSelect vals facets fid = [] := by
  have hno : ∀ row ∈ facets, fid ∉ row := by
    simpa [gridOccurs, List.any_eq_true] using hnocc
  simp only [boolSelect, List.flatten_eq_nil_iff]
  intro l hl
  obtain ⟨p, hp, rfl⟩ := List.mem_map.mp hl
  rw [List.filterMap_eq_nil_iff]
  intro q hq
  have h2 : q.2 ∈ p.2 := (List.of_mem_zip hq).2
  have hp2 : p.2 ∈ facets := (List.of_mem_zip hp).2
  have hne : q.2 ≠ fid := fun he => hno p.2 hp2 (he ▸ h2)
  simp [hne]

/-- One row of the boolean selection is nonempty when the facet id
occurs in the facet row and the value row has the same length. -/
theorem rowSelect_ne_nil (fid : ℤ) :
    ∀ (frow : List ℤ) (vrow : List ℚ), vrow.length = frow.length →
      fid ∈ frow →
      (vrow.zip frow).filterMap
        (fun q => if q.2 = fid then some q.1 else none) ≠ [] := by
  intro frow
  induction frow with
  | nil => intro vrow _ hmem; cases hmem
  | cons f fr ih =>
    intro vrow hlen hmem
    cases vrow with
    | nil => simp at hlen
    | cons v vr =>
      rcases List.mem_cons.mp hmem with h | h
      · simp [List.zip_cons_cons, List.filterMap_cons, h.symm]
      · by_cases hf : f = fid
        · simp [List.zip_cons_cons, List.filterMap_cons, hf]
        · have := ih vr (by simpa using hlen) h
          simp only [List.zip_cons_cons, List.filterMap_cons, if_neg hf]
          exact this

/-- The boolean selection is nonempty when the facet id occurs somewhere
and the value grid has the facet grid's shape. -/
theorem boolSelect_ne_nil (fid : ℤ) :
    ∀ (facets : List (List ℤ)) (vals : List (List ℚ)),
      gridDims vals = gridDims facets →
      gridOccurs facets fid = true →
      boolSelect vals facets fid ≠ [] := by
  intro facets
  induction facets with
  | nil => intro vals _ hocc; simp [gridOccurs] at hocc
  | cons frow frest ih =>
    intro vals hdim hocc
    cases vals with
    | nil => simp [gridDims] at hdim
    | cons vrow vrest =>
      simp only [gridDims, List.map_cons, List.cons.injEq] at hdim
      have hocc' : frow.any (fun v => v == fid) = true
          ∨ gridOccurs frest fid = true := by
        simpa [gridOccurs, List.any_cons] using hocc
      simp only [boolSelect, List.zip_cons_cons, List.map_cons,
        List.flatten_cons, ne_eq]
      intro hcontra
      have hparts := List.append_eq_nil.mp hcontra
      rcases hocc' with h | h
      · exact rowSelect_ne_nil fid frow vrow hdim.1
          (by simpa [List.any_eq_true, beq_iff_eq] using h) hparts.1
      · exact ih vrest hdim.2 h (by simpa [boolSelect] using hparts.2)

/-- C4: for a facet id `F` that occurs in the facet grid, the overview
map renders successfully and its label position is exactly the pair
(median of the longitudes where facet = F, median of the latitudes where
facet = F), and both medians are defined numbers. -/
theorem overview_label_is_median (orientation facets : List (List ℤ))
    (lats lons : List (List ℚ)) (fid : ℤ)
    (hpc : pcolormeshOk lons lats (maskGrid (floatGrid orientation)) = true)
    (hlon : gridDims facets = gridDims lons)
    (hlat : gridDims facets = gridDims lats)
    (hocc : gridOccurs facets fid = true) :
    renderOverview orientation facets lats lons fid
      = Except.ok ("../figures/facet_orientations.png",
          (npMedian (boolSelect lons facets fid),
            npMedian (boolSelect lats facets fid)))
    ∧ (∃ x, npMedian (boolSelect lons facets fid) = some x)
    ∧ (∃ y, npMedian (boolSelect lats facets fid) = some y) := by
  refine ⟨?_, ?_, ?_⟩
  · have e1 : (gridDims facets == gridDims lons) = true := by
      rw [hlon]; simp
    have e2 : (gridDims facets == gridDims lats) = true := by
      rw [hlat]; simp
    simp [renderOverview, hpc, e1, e2, labelPos]
  · exact npMedian_isSome _ (boolSelect_ne_nil fid facets lons hlon.symm hocc)
  · exact npMedian_isSome _ (boolSelect_ne_nil fid facets lats hlat.symm hocc)

/-- Concrete instance of C4: on the example grids, the label of facet
2131 is the pair of medians of the selected coordinates. -/
theorem overview_label_is_median_witness :
    (pcolormeshOk lonsEx latsEx (maskGrid (floatGrid orientationEx)) = true
      ∧ gridDims facetsEx = gridDims lonsEx
      ∧ gridDims facetsEx = gridDims latsEx
      ∧ gridOccurs facetsEx 2131 = true)
    ∧ renderOverview orientationEx facetsEx latsEx lonsEx 2131
      = Except.ok ("../figures/facet_orientations.png",
          (npMedian (boolSelect lonsEx facetsEx 2131),
            npMedian (boolSelect latsEx facetsEx 2131))) :=
  ⟨⟨by decide, by decide, by decide, by decide⟩,
    (overview_label_is_median orientationEx facetsEx latsEx lonsEx 2131
      (by decide) (by decide) (by decide) (by decide)).1⟩

/-- C7: when the designated facet id matches zero cells, nothing catches
the degenerate selection: both boolean selections are empty, `np.median`
of each is the undefined marker (NaN), and the label position the
rendering goes on to use is the undefined pair. -/
theorem overview_centroid_undefined (facets : List (List ℤ))
    (lons lats : List (List ℚ)) (fid : ℤ)
    (hnocc : gridOccurs facets fid = false) :
    boolSelect lons facets fid = [] ∧ boolSelect lats facets fid = []
    ∧ labelPos facets lons lats fid = (none, none) := by
  have h1 := boolSelect_eq_nil lons facets fid hnocc
  have h2 := boolSelect_eq_nil lats facets fid hnocc
  refine ⟨h1, h2, ?_⟩
  simp [labelPos, h1, h2, npMedian, sortAsc]

/-- Concrete instance of C7: facet 2131 occurs nowhere in
`facetsNoLabel`, and the computed label position is undefined. -/
theorem overview_centroid_undefined_witness :
    gridOccurs facetsNoLabel 2131 = false
    ∧ labelPos facetsNoLabel lonsEx latsEx 2131 = (none, none) :=
  ⟨by decide,
    (overview_centroid_undefined facetsNoLabel lonsEx latsEx 2131
      (by decide)).2.2⟩

/-- Length of a strided list, parameterised by the skip counter. -/
theorem stride5Aux_length (l : List α) :
    ∀ n, n ≤ 4 → (stride5Aux n l).length = (l.length + (4 - n)) / 5 := by
  induction l with
  | nil => intro n hn; simp [stride5Aux]; omega
  | cons x xs ih =>
    intro n hn
    cases n with
    | zero =>
      have h4 := ih 4 (by omega)
      simp only [stride5Aux, List.length_cons, h4]
      omega
    | succ m =>
      have hm := ih m (by omega)
      simp only [stride5Aux, List.length_cons, hm]
      omega

/-- Length of the numpy stride `[::5]`. -/
theorem stride5_length (l : List α) :
    (stride5 l).length = (l.length + 4) / 5 := by
  simpa using stride5Aux_length l 0 (by omega)

/-- Every element kept by the strided view is an element of the list. -/
theorem stride5Aux_subset (l : List α) :
    ∀ n, ∀ a ∈ stride5Aux n l, a ∈ l := by
  induction l with
  | nil => intro n a ha; simp [stride5Aux] at ha
  | cons x xs ih =>
    intro n a ha
    cases n with
    | zero =>
      rcases List.mem_cons.mp ha with h | h
      · simp [h]
      · exact List.mem_cons_of_mem x (ih 4 a h)
    | succ m => exact List.mem_cons_of_mem x (ih m a ha)

/-- Every element of `stride5 l` is an element of `l`. -/
theorem stride5_subset (l : List α) : ∀ a ∈ stride5 l, a ∈ l :=
  stride5Aux_subset l 0

/-- Unpacking of the well-formedness check into propositions. -/
theorem wellFormed_parts (f : AtmosField) (h : wellFormed f = true) :
    f.data.length = f.time.length
    ∧ ∀ slab ∈ f.data,
        2 ≤ slab.length ∧ (∀ row ∈ slab, 2 ≤ row.length)
        ∧ slab.length = f.latitude.length
        ∧ ∀ row ∈ slab, row.length = f.longitude.length := by
  simp only [wellFormed, Bool.and_eq_true, List.all_eq_true, gridMatches,
    beq_iff_eq, decide_eq_true_eq] at h
  obtain ⟨hlen, hall⟩ := h
  refine ⟨hlen, ?_⟩
  intro slab hs
  obtain ⟨⟨⟨h1, h2⟩, h3⟩, h4⟩ := hall slab hs
  exact ⟨h1, h2, h3, h4⟩

/-- A well-formed field's panel draws whenever the day index is in
bounds for its data variable. -/
theorem panelOk_of (f : AtmosField) (k : Nat) (hwf : wellFormed f = true)
    (hk : k < f.data.length) : panelOk f k = true := by
  obtain ⟨-, hall⟩ := wellFormed_parts f hwf
  have hsome : f.data[k]? = some f.data[k] := List.getElem?_eq_getElem hk
  obtain ⟨h1, h2, h3, h4⟩ := hall _ (List.getElem_mem hk)
  simp only [panelOk, hsome, gridMatches, Bool.and_eq_true, List.all_eq_true,
    beq_iff_eq, decide_eq_true_eq]
  exact ⟨⟨⟨h1, h2⟩, h3⟩, h4⟩

/-- A drawn panel means the day index was in bounds for the field. -/
theorem panelOk_bound (f : AtmosField) (k : Nat) (h : panelOk f k = true) :
    k < f.data.length := by
  by_contra hge
  have hnone : f.data[k]? = none := List.getElem?_eq_none (Nat.le_of_not_lt hge)
  simp [panelOk, hnone] at h

/-- Lengths of the strided rows of a strided grid with constant row
length. -/
theorem stride5_map_length (g : List (List ℚ)) (c : Nat)
    (hg : ∀ r ∈ g, r.length = c) :
    ((stride5 g).map stride5).map List.length
      = List.replicate (stride5 g).length ((c + 4) / 5) := by
  rw [List.eq_replicate_iff]
  refine ⟨by simp, ?_⟩
  intro b hb
  simp only [List.map_map, List.mem_map, Function.comp_apply] at hb
  obtain ⟨r, hr, rfl⟩ := hb
  rw [stride5_length, hg r (stride5_subset _ r hr)]

/-- The barb overlay draws when both wind fields are well formed, the
day is in bounds for both, and the two fields share their coordinate
axis lengths. -/
theorem barbsOk_of (u v : AtmosField) (k : Nat)
    (hu : wellFormed u = true) (hv : wellFormed v = true)
    (hku : k < u.data.length) (hkv : k < v.data.length)
    (hlat : u.latitude.length = v.latitude.length)
    (hlon : u.longitude.length = v.longitude.length) :
    barbsOk u v k = true := by
  obtain ⟨-, hallu⟩ := wellFormed_parts u hu
  obtain ⟨-, hallv⟩ := wellFormed_parts v hv
  have hus : u.data[k]? = some u.data[k] := List.getElem?_eq_getElem hku
  have hvs : v.data[k]? = some v.data[k] := List.getElem?_eq_getElem hkv
  obtain ⟨-, -, hulen, hurows⟩ := hallu _ (List.getElem_mem hku)
  obtain ⟨-, -, hvlen, hvrows⟩ := hallv _ (List.getElem_mem hkv)
  simp only [barbsOk, hus, hvs, Bool.and_eq_true]
  refine ⟨⟨?_, ?_⟩, ?_⟩
  · rw [List.length_map, stride5_length, stride5_length, hulen]
    simp
  · rw [List.all_eq_true]
    intro row hrow
    simp only [List.mem_map] at hrow
    obtain ⟨r, hr, rfl⟩ := hrow
    rw [beq_iff_eq, stride5_length, stride5_length,
      hurows r (stride5_subset _ r hr)]
  · rw [stride5_map_length (v.data[k]) v.longitude.length hvrows,
      stride5_map_length (u.data[k]) u.longitude.length hurows,
      stride5_length, stride5_length, hulen, hvlen, hlat, hlon]
    simp

/-- All of a day's drawing operations go through when every field is
well formed, the day is in bounds for every field, and the two wind
fields share coordinate axis lengths. -/
theorem dayOk_of (A : RawAtmos) (k : Nat)
    (h1 : wellFormed A.ivt = true) (h2 : wellFormed A.precip = true)
    (h3 : wellFormed A.temp700 = true) (h4 : wellFormed A.uwinds700 = true)
    (h5 : wellFormed A.vwinds700 = true) (h6 : wellFormed A.hgt500 = true)
    (b1 : k < A.ivt.data.length) (b2 : k < A.precip.data.length)
    (b3 : k < A.temp700.data.length) (b4 : k < A.uwinds700.data.length)
    (b5 : k < A.vwinds700.data.length) (b6 : k < A.hgt500.data.length)
    (c1 : A.uwinds700.latitude.length = A.vwinds700.latitude.length)
    (c2 : A.uwinds700.longitude.length = A.vwinds700.longitude.length) :
    dayOk A k = true := by
  simp only [dayOk, Bool.and_eq_true]
  exact ⟨⟨⟨⟨⟨⟨panelOk_of _ _ h1 b1, panelOk_of _ _ h6 b6⟩,
    panelOk_of _ _ h2 b2⟩, panelOk_of _ _ h4 b4⟩, panelOk_of _ _ h5 b5⟩,
    panelOk_of _ _ h3 b3⟩, barbsOk_of _ _ _ h4 h5 b4 b5 c1 c2⟩

/-- When every day's drawing goes through, the loop writes one file per
remaining day and completes. -/
theorem renderFrom_ok (A : RawAtmos) :
    ∀ (ds : List Date) (k : Nat),
      (∀ i, i < ds.length → dayOk A (k + i) = true) →
      renderFrom A k ds = (ds.map dailyFile, true) := by
  intro ds
  induction ds with
  | nil => intro k _; rfl
  | cons d ds ih =>
    intro k h
    have h0 : dayOk A k = true := by simpa using h 0 (by simp)
    have hrest : ∀ i, i < ds.length → dayOk A (k + 1 + i) = true := by
      intro i hi
      have := h (i + 1) (by simpa using Nat.succ_lt_succ hi)
      simpa [Nat.add_comm, Nat.add_assoc, Nat.add_left_comm] using this
    simp only [renderFrom, h0, if_true, ih (k + 1) hrest, List.map_cons]

/-- A completed loop means every day's drawing went through. -/
theorem renderFrom_snd (A : RawAtmos) :
    ∀ (ds : List Date) (k : Nat), (renderFrom A k ds).2 = true →
      ∀ i, i < ds.length → dayOk A (k + i) = true := by
  intro ds
  induction ds with
  | nil => intro k _ i hi; simp at hi
  | cons d ds ih =>
    intro k h i hi
    by_cases h0 : dayOk A k = true
    · rw [renderFrom, if_pos h0] at h
      cases i with
      | zero => simpa using h0
      | succ n =>
        have := ih (k + 1) (by simpa using h) n (by
          simpa using Nat.lt_of_succ_lt_succ hi)
        simpa [Nat.add_comm, Nat.add_assoc, Nat.add_left_comm] using this
    · rw [renderFrom, if_neg h0] at h
      simp at h

/-- The daily loop writes exactly one file per day of IVT's time axis
when all fields cover it. -/
theorem renderDaily_eq_of (A : RawAtmos)
    (h1 : wellFormed A.ivt = true) (h2 : wellFormed A.precip = true)
    (h3 : wellFormed A.temp700 = true) (h4 : wellFormed A.uwinds700 = true)
    (h5 : wellFormed A.vwinds700 = true) (h6 : wellFormed A.hgt500 = true)
    (l1 : A.ivt.time.length ≤ A.precip.data.length)
    (l2 : A.ivt.time.length ≤ A.temp700.data.length)
    (l3 : A.ivt.time.length ≤ A.uwinds700.data.length)
    (l4 : A.ivt.time.length ≤ A.vwinds700.data.length)
    (l5 : A.ivt.time.length ≤ A.hgt500.data.length)
    (c1 : A.uwinds700.latitude.length = A.vwinds700.latitude.length)
    (c2 : A.uwinds700.longitude.length = A.vwinds700.longitude.length) :
    renderDaily A = (A.ivt.time.map dailyFile, true) := by
  have hivt : A.ivt.data.length = A.ivt.time.length :=
    (wellFormed_parts A.ivt h1).1
  have hdays : ∀ i, i < A.ivt.time.length → dayOk A i = true := by
    intro i hi
    exact dayOk_of A i h1 h2 h3 h4 h5 h6 (by omega)
      (by omega) (by omega) (by omega) (by omega) (by omega) c1 c2
  have h := renderFrom_ok A A.ivt.time 0 (fun i hi => by
    simpa using hdays i hi)
  simpa [renderDaily] using h

/-- C5: invoked on a date-subsetted atmospheric dataset whose six
variables are well formed, cover IVT's time axis and share wind
coordinate lengths, the daily multi-panel renderer produces exactly one
output file per day of the subset, each named from that day's calendar
date in ISO form (`atmos_YYYY-MM-DD.png`). -/
theorem renderDaily_one_file_per_day (A : RawAtmos)
    (hwf : wellFormed A.ivt = true ∧ wellFormed A.precip = true
      ∧ wellFormed A.temp700 = true ∧ wellFormed A.uwinds700 = true
      ∧ wellFormed A.vwinds700 = true ∧ wellFormed A.hgt500 = true)
    (hlen : A.ivt.time.length ≤ A.precip.data.length
      ∧ A.ivt.time.length ≤ A.temp700.data.length
      ∧ A.ivt.time.length ≤ A.uwinds700.data.length
      ∧ A.ivt.time.length ≤ A.vwinds700.data.length
      ∧ A.ivt.time.length ≤ A.hgt500.data.length)
    (hco : A.uwinds700.latitude.length = A.vwinds700.latitude.length
      ∧ A.uwinds700.longitude.length = A.vwinds700.longitude.length) :
    renderDaily A = (A.ivt.time.map dailyFile, true)
    ∧ (renderDaily A).1.length = A.ivt.time.length := by
  obtain ⟨h1, h2, h3, h4, h5, h6⟩ := hwf
  obtain ⟨l1, l2, l3, l4, l5⟩ := hlen
  have h := renderDaily_eq_of A h1 h2 h3 h4 h5 h6 l1 l2 l3 l4 l5 hco.1 hco.2
  exact ⟨h, by simp [h]⟩

/-- Concrete instance of C5: the renderer on the six-day subset writes
exactly 6 files, one per day, named from the days' ISO dates. -/
theorem renderDaily_one_file_per_day_witness :
    (renderDaily sixDayAtmos).1.length = 6
    ∧ renderDaily sixDayAtmos = (sixDayTimes.map dailyFile, true) := by
  have h := renderDaily_one_file_per_day sixDayAtmos
    ⟨by decide, by decide, by decide, by decide, by decide, by decide⟩
    ⟨by decide, by decide, by decide, by decide, by decide⟩
    ⟨by decide, by decide⟩
  exact ⟨by rw [h.2]; decide, h.1⟩

/-- C9: the daily renderer iterates over exactly IVT's time axis — with
full coverage the number of files equals the length of IVT's subsetted
time axis — and a completed run forces every other variable's time axis
to be at least as long as IVT's, since each variable is indexed at the
same day position per iteration. -/
theorem renderDaily_iterates_ivt (A : RawAtmos)
    (hwf : wellFormed A.ivt = true ∧ wellFormed A.precip = true
      ∧ wellFormed A.temp700 = true ∧ wellFormed A.uwinds700 = true
      ∧ wellFormed A.vwinds700 = true ∧ wellFormed A.hgt500 = true) :
    ((A.ivt.time.length ≤ A.precip.data.length
      ∧ A.ivt.time.length ≤ A.temp700.data.length
      ∧ A.ivt.time.length ≤ A.uwinds700.data.length
      ∧ A.ivt.time.length ≤ A.vwinds700.data.length
      ∧ A.ivt.time.length ≤ A.hgt500.data.length
      ∧ A.uwinds700.latitude.length = A.vwinds700.latitude.length
      ∧ A.uwinds700.longitude.length = A.vwinds700.longitude.length) →
      (renderDaily A).1.length = A.ivt.time.length)
    ∧ ((renderDaily A).2 = true →
      A.ivt.time.length ≤ A.precip.time.length
      ∧ A.ivt.time.length ≤ A.temp700.time.length
      ∧ A.ivt.time.length ≤ A.uwinds700.time.length
      ∧ A.ivt.time.length ≤ A.vwinds700.time.length
      ∧ A.ivt.time.length ≤ A.hgt500.time.length) := by
  obtain ⟨h1, h2, h3, h4, h5, h6⟩ := hwf
  constructor
  · intro ⟨l1, l2, l3, l4, l5, c1, c2⟩
    have h := renderDaily_eq_of A h1 h2 h3 h4 h5 h6 l1 l2 l3 l4 l5 c1 c2
    simp [h]
  · intro hok
    have hda := renderFrom_snd A A.ivt.time 0 (by simpa [renderDaily] using hok)
    have hd : ∀ i, i < A.ivt.time.length →
        panelOk A.precip i = true ∧ panelOk A.temp700 i = true
        ∧ panelOk A.uwinds700 i = true ∧ panelOk A.vwinds700 i = true
        ∧ panelOk A.hgt500 i = true := by
      intro i hi
      have h := hda i hi
      simp only [Nat.zero_add] at h
      simp only [dayOk, Bool.and_eq_true] at h
      obtain ⟨⟨⟨⟨⟨⟨-, hhgt⟩, hpre⟩, huw⟩, hvw⟩, htmp⟩, -⟩ := h
      exact ⟨hpre, htmp, huw, hvw, hhgt⟩
    have key : ∀ (f : AtmosField), wellFormed f = true →
        (∀ i, i < A.ivt.time.length → panelOk f i = true) →
        A.ivt.time.length ≤ f.time.length := by
      intro f hwf hp
      have hdata : f.data.length = f.time.length := (wellFormed_parts f hwf).1
      by_contra hlt
      have hb := panelOk_bound f f.time.length (hp f.time.length (by omega))
      omega
    exact ⟨key A.precip h2 (fun i hi => (hd i hi).1),
      key A.temp700 h3 (fun i hi => (hd i hi).2.1),
      key A.uwinds700 h4 (fun i hi => (hd i hi).2.2.1),
      key A.vwinds700 h5 (fun i hi => (hd i hi).2.2.2.1),
      key A.hgt500 h6 (fun i hi => (hd i hi).2.2.2.2)⟩

/-- Concrete instance of C9: on the six-day subset, 6 days are rendered
and each variable's time axis covers IVT's. -/
theorem renderDaily_iterates_ivt_witness :
    (renderDaily sixDayAtmos).1.length = sixDayAtmos.ivt.time.length
    ∧ sixDayAtmos.ivt.time.length ≤ sixDayAtmos.precip.time.length := by
  have h := renderDaily_iterates_ivt sixDayAtmos
    ⟨by decide, by decide, by decide, by decide, by decide, by decide⟩
  refine ⟨h.1 ⟨by decide, by decide, by decide, by decide, by decide,
    by decide, by decide⟩, ?_⟩
  exact (h.2 (by rw [renderDaily_eq_of sixDayAtmos (by decide) (by decide)
    (by decide) (by decide) (by decide) (by decide) (by decide) (by decide)
    (by decide) (by decide) (by decide) (by decide) (by decide)])).1

/-- Counterexample to C6 as stated: the precipitation grid's spatial
shape (3×3) differs from IVT's (2×2), the two fields are used together
in the daily multi-panel figure, and every grid meets the 2×2 minimum
that `contourf` demands, yet nothing rejects the inputs — each panel
contours its own field against its own coordinates, the loop runs to
completion and both daily images are written to disk. -/
theorem shape_mismatch_not_rejected :
    (mismatchAtmos.precip.latitude.length,
        mismatchAtmos.precip.longitude.length)
      ≠ (mismatchAtmos.ivt.latitude.length,
        mismatchAtmos.ivt.longitude.length)
    ∧ renderDaily mismatchAtmos
      = ([dailyFile (janDay 7), dailyFile (janDay 8)], true)
    ∧ (renderDaily mismatchAtmos).1.length = 2 := by
  refine ⟨by decide, by decide, by decide⟩

/-- C6 (amended): shape mismatches are rejected only at the first
operation that actually combines the mismatched arrays; in the overview
map, coordinate grids that `pcolormesh` cannot pair with the orientation
grid raise before `savefig`, so no file is written there. -/
theorem overview_shape_mismatch_fails_before_write
    (orientation facets : List (List ℤ)) (lats lons : List (List ℚ))
    (fid : ℤ)
    (h : pcolormeshOk lons lats (maskGrid (floatGrid orientation)) = false) :
    renderOverview orientation facets lats lons fid
      = Except.error "pcolormesh: incompatible X, Y, C dimensions" := by
  simp [renderOverview, h]

/-- Concrete instance of the amended C6: a 2×1 orientation grid against
2×2 coordinate grids fails the pcolormesh dimension check and the
overview cell raises before writing its file. -/
theorem overview_shape_mismatch_fails_before_write_witness :
    pcolormeshOk lonsEx latsEx (maskGrid (floatGrid orientationTall)) = false
    ∧ renderOverview orientationTall facetsEx latsEx lonsEx 2131
      = Except.error "pcolormesh: incompatible X, Y, C dimensions" :=
  ⟨by decide,
    overview_shape_mismatch_fails_before_write orientationTall facetsEx
      latsEx lonsEx 2131 (by decide)⟩

/-- Cell access through the float copy of an integer grid. -/
theorem gridCell_floatGrid (g : List (List ℤ)) (i j : Nat) :
    gridCell (floatGrid g) i j
      = (gridCell g i j).map (fun v => some (intToRat v)) := by
  simp only [floatGrid, gridCell, List.getElem?_map]
  cases g[i]? with
  | none => rfl
  | some row =>
    simp only [Option.map_some', Option.some_bind', List.getElem?_map]

/-- Cell access through the masking of a float grid. -/
theorem gridCell_maskGrid (g : List (List (Option ℚ))) (i j : Nat) :
    gridCell (maskGrid g) i j = (gridCell g i j).map maskCell := by
  simp only [maskGrid, gridCell, List.getElem?_map]
  cases g[i]? with
  | none => rfl
  | some row =>
    simp only [Option.map_some', Option.some_bind', List.getElem?_map]

/-- C8: running all three rendering cells leaves every loaded array
exactly as it was: the only new binding is `orientx`, which holds the
mask of a fresh float copy of the orientation grid (`astype('float')`
copies before the in-place assignment), so the loaded orientation layer
still carries its sentinel 9 where the masked copy carries the missing
marker. -/
theorem rendering_preserves_loaded_data (nb : Notebook) (i j : Nat)
    (h9 : gridCell nb.orientation i j = some 9) :
    ((renderAllCells nb).elev = nb.elev
      ∧ (renderAllCells nb).facets = nb.facets
      ∧ (renderAllCells nb).lats = nb.lats
      ∧ (renderAllCells nb).lons = nb.lons
      ∧ (renderAllCells nb).orientation = nb.orientation
      ∧ (renderAllCells nb).opg = nb.opg
      ∧ (renderAllCells nb).atmos = nb.atmos)
    ∧ (renderAllCells nb).orientx
      = some (maskGrid (floatGrid nb.orientation))
    ∧ gridCell (floatGrid (renderAllCells nb).orientation) i j
      = some (some 9)
    ∧ gridCell (maskGrid (floatGrid (renderAllCells nb).orientation)) i j
      = some none := by
  have horient : (renderAllCells nb).orientation = nb.orientation := rfl
  have hfloat : gridCell (floatGrid nb.orientation) i j = some (some 9) := by
    rw [gridCell_floatGrid, h9]
    norm_num [intToRat]
  refine ⟨⟨rfl, rfl, rfl, rfl, rfl, rfl, rfl⟩, rfl, ?_, ?_⟩
  · rw [horient, hfloat]
  · rw [horient, gridCell_maskGrid, hfloat]
    simp [maskCell]

/-- Concrete instance of C8: on the example notebook the rendering cells
leave the loaded orientation layer intact while the masked copy has the
missing marker where the layer holds 9. -/
theorem rendering_preserves_loaded_data_witness :
    gridCell notebookEx.orientation 0 1 = some 9
    ∧ gridCell (maskGrid (floatGrid (renderAllCells notebookEx).orientation))
        0 1 = some none :=
  ⟨by decide,
    (rendering_preserves_loaded_data notebookEx 0 1 (by decide)).2.2.2⟩

end CirohDatasets
